import Mathlib

/-!
Shallow embedding of the TI-Nspire USB file-protocol client
(`tinspire_device.py` and `tinspire_list_files.py`).

Bytes are modelled as `Nat`, byte strings as `List Nat`.  A scripted
transport is a list of frames (`List (List Nat)`): each `read` call pops
the next frame (`read(length)` returns at most `length` bytes, modelled
with `List.take`); an exhausted script yields the empty frame, i.e. a
zero-length read.  Every operation returns its outcome together with the
ordered list of packets written on the bulk-out pipe.  Remote paths are
modelled by their UTF-8 byte encoding (`path.encode('utf-8')`); directory
entry names are likewise kept as raw bytes (UTF-8 decoding of names is
not modelled).
-/

/-- `struct.pack(">H", n)` — 2-byte big-endian. -/
def u16be (n : Nat) : List Nat := [n / 256 % 256, n % 256]

/-- `struct.pack(">I", n)` — 4-byte big-endian. -/
def u32be (n : Nat) : List Nat :=
  [n / 16777216 % 256, n / 65536 % 256, n / 256 % 256, n % 256]

/-- `struct.unpack(">I", b)` on a 4-byte buffer — big-endian value. -/
def beU32 (b : List Nat) : Nat := b.foldl (fun acc x => acc * 256 + x) 0

/-- Python `xs[-2:]`: the last two elements (fewer when the list is shorter). -/
def lastTwo (xs : List Nat) : List Nat := xs.drop (xs.length - 2)

/-- Index of the first NUL byte of a list, if any. -/
def findIdxNul : List Nat → Option Nat
  | [] => none
  | x :: xs => if x = 0 then some 0 else (findIdxNul xs).map (· + 1)

/-- Python `buf.find(b'\x00', i)`: absolute index of the first NUL at
position `≥ i`, `none` standing for the return value `-1`. -/
def findNulFrom (l : List Nat) (i : Nat) : Option Nat :=
  (findIdxNul (l.drop i)).map (i + ·)

/-- The exceptions raised by the two modules.  Each operation raises bare
`Exception`s with distinct messages; they are told apart here by
constructor.  `indexError` and `structError` are the implicit Python
`IndexError` / `struct.error` raised by out-of-range indexing and
short `struct.unpack` buffers. -/
inductive PyErr where
  | invalidInitResponse
  | uploadNotConfirmed
  | fileNotFound
  | unexpectedTimeout
  | indexError
  | structError
deriving DecidableEq

/-- One directory-listing record, as built by `list_directory`
(`{'name': …, 'size': …, 'type': 'dir' if entry_type else 'file'}`;
the decoded date is extracted but not stored, exactly as in the source). -/
structure DirectoryEntry where
  name : List Nat
  size : Nat
  isDir : Bool
deriving DecidableEq

namespace TinspireDevice

/-- `TINspireDevice.SERVICE_FILE` in `tinspire_device.py`. -/
def SERVICE_FILE : Nat := 0x4060

/-- `TINspireDevice.build_packet` (`tinspire_device.py` lines 86-100):
2-byte big-endian command, UTF-8 path, NUL terminator, payload.
No validation of any kind is performed on `path`. -/
def build_packet (cmd : Nat) (path : List Nat) (payload : List Nat) : List Nat :=
  u16be cmd ++ path ++ [0] ++ payload

/-- `TINspireDevice.connect_service` (lines 102-112): writes the 2-byte
service id, reads and discards one response frame.  Returns the remaining
script and the updated write log. -/
def connect_service (service_id : Nat) (script log : List (List Nat)) :
    List (List Nat) × List (List Nat) :=
  (script.drop 1, log ++ [u16be service_id])

/-- `TINspireDevice.disconnect_service` (lines 114-120): writes the single
byte `0xFF`.  (Not called by `file_write` / `file_read`, which use
`close_service` instead.) -/
def disconnect_service (log : List (List Nat)) : List (List Nat) :=
  log ++ [[0xFF]]

/-- `TINspireDevice.close_service` (lines 220-225): writes the single
byte `0x04`. -/
def close_service (log : List (List Nat)) : List (List Nat) :=
  log ++ [[0x04]]

/-- Fuel-indexed worker for the upload chunking loop; the fuel is an upper
bound on the content length, so the `0, _ :: _` branch is never reached
from `chunks253`. -/
def chunksGo : Nat → List Nat → List (List Nat)
  | _, [] => []
  | 0, _ :: _ => []
  | fuel + 1, x :: xs => (x :: xs.take 252) :: chunksGo fuel (xs.drop 252)

/-- The chunk decomposition performed by the upload loop of
`TINspireDevice.file_write` (lines 145-151): successive slices
`file_content[offset:offset + 253]` until the content is exhausted. -/
def chunks253 (content : List Nat) : List (List Nat) :=
  chunksGo content.length content

/-- `TINspireDevice.file_write` (lines 122-162) run against a scripted
transport.  Returns the outcome and the ordered write log. -/
def file_write (remote_path : List Nat) (file_content : List Nat)
    (script : List (List Nat)) : Except PyErr Unit × List (List Nat) :=
  let c := connect_service SERVICE_FILE script []
  let s1 := c.1
  let init_packet := build_packet 0x0301 remote_path (u32be file_content.length)
  let log1 := c.2 ++ [init_packet]
  let response := (s1.headD []).take 512
  match response.head? with
  | none => (.error .indexError, log1)
  | some b =>
    if b = 0x04 then
      let chunk_packets := (chunks253 file_content).map (fun chunk => 5 :: chunk)
      let log2 := log1 ++ chunk_packets
      let final_response := ((s1.drop 1).headD []).take 512
      if lastTwo final_response = [0xFF, 0x00] then
        (.ok (), close_service log2)
      else
        (.error .uploadNotConfirmed, log2)
    else (.error .invalidInitResponse, log1)

/-- One iteration of the download receive loop of `file_read`
(lines 202-212), entered with `bytes_left > 0`: read
`min(bytes_left + 1, 254)` bytes; `none` models the
`if not chunk: raise` branch, otherwise the marker byte is stripped and
`bytes_left` decremented by the data length. -/
def readStep (bytes_left : Nat) (frame : List Nat) :
    Option (Nat × List Nat) :=
  let chunk := frame.take (min (bytes_left + 1) 254)
  if chunk.isEmpty then none
  else some (bytes_left - (chunk.length - 1), chunk.drop 1)

/-- The `while bytes_left > 0` receive loop of `file_read`
(lines 202-212) over the remaining scripted frames.  An exhausted script
behaves as a zero-length read. -/
def readLoop : List (List Nat) → Nat → List Nat → Except PyErr (List Nat)
  | _, 0, acc => .ok acc
  | [], _ + 1, _ => .error .unexpectedTimeout
  | frame :: rest, bl + 1, acc =>
    match readStep (bl + 1) frame with
    | none => .error .unexpectedTimeout
    | some (bl2, data) => readLoop rest bl2 (acc ++ data)

/-- `TINspireDevice.file_read` (lines 164-218) run against a scripted
transport.  Returns the outcome and the ordered write log. -/
def file_read (remote_path : List Nat) (script : List (List Nat)) :
    Except PyErr (List Nat) × List (List Nat) :=
  let c := connect_service SERVICE_FILE script []
  let s1 := c.1
  let read_packet := u16be 0x0701 ++ remote_path ++ [0]
  let log1 := c.2 ++ [read_packet]
  let header_response := (s1.headD []).take 512
  if header_response.length < 16 ∨ header_response.take 2 ≠ [3, 1] then
    (.error .fileNotFound, close_service log1)
  else
    let file_size := beU32 ((header_response.drop 12).take 4)
    let log2 := log1 ++ [[0x04]]
    match readLoop (s1.drop 1) file_size [] with
    | .error e => (.error e, log2)
    | .ok data => (.ok data, close_service (log2 ++ [[0xFF, 0x00]]))

/-- The receive loop of `file_read` driven by an infinite stream of
frames (`frames i` is what the i-th read call would deliver), with
explicit fuel: `none` means the loop has not finished within `fuel`
iterations, `some r` that it returned / raised with result `r`. -/
def readLoopStream (frames : Nat → List Nat) :
    Nat → Nat → Nat → List Nat → Option (Except PyErr (List Nat))
  | _, _, 0, acc => some (.ok acc)
  | 0, _, _ + 1, _ => none
  | fuel + 1, i, bl + 1, acc =>
    match readStep (bl + 1) (frames i) with
    | none => some (.error .unexpectedTimeout)
    | some (bl2, data) => readLoopStream frames fuel (i + 1) bl2 (acc ++ data)

/-- The download receive loop, started on frame stream `frames` with
`bl` bytes remaining, finishes (returns or raises) after finitely many
reads. -/
def downloadTerminates (frames : Nat → List Nat) (bl : Nat) : Prop :=
  ∃ fuel, (readLoopStream frames fuel 0 bl []).isSome

end TinspireDevice

namespace TinspireListFiles

/-- `TINspireDevice.connect_service` in `tinspire_list_files.py`
(lines 85-91): writes the 2-byte file-service id `0x4060`, reads and
ignores one response frame. -/
def connect_service (script log : List (List Nat)) :
    List (List Nat) × List (List Nat) :=
  (script.drop 1, log ++ [u16be 0x4060])

/-- `TINspireDevice.disconnect_service` in `tinspire_list_files.py`
(lines 93-98): writes the single byte `0x04`. -/
def disconnect_service (log : List (List Nat)) : List (List Nat) :=
  log ++ [[0x04]]

/-- The directory-entry decoding inlined in `list_directory`
(lines 137-148): type byte at offset 1, big-endian u32 size at 4..8,
big-endian u32 date at 8..12 (extracted, then discarded), name the bytes
from offset 12 up to `entry.find(b'\x00', 12)` — which is `entry[12:-1]`
when no NUL is found, since `find` then returns `-1`. -/
def decode_entry (entry : List Nat) : Except PyErr DirectoryEntry :=
  match entry.get? 1 with
  | none => .error .indexError
  | some entry_type =>
    let size_bytes := (entry.drop 4).take 4
    if size_bytes.length ≠ 4 then .error .structError
    else
      let date_bytes := (entry.drop 8).take 4
      if date_bytes.length ≠ 4 then .error .structError
      else
        let filename :=
          match findNulFrom entry 12 with
          | some j => (entry.take j).drop 12
          | none => (entry.take (entry.length - 1)).drop 12
        .ok { name := filename, size := beU32 size_bytes,
              isDir := entry_type != 0 }

/-- The `while True` loop of `list_directory` (lines 122-149): write the
next-entry request `0x0E`, read a frame; a first byte `0xFF` terminates,
an empty frame raises `IndexError` at `entry[0]`, otherwise the frame is
decoded and appended. -/
def listLoop : List (List Nat) → List (List Nat) → List DirectoryEntry →
    Except PyErr (List DirectoryEntry) × List (List Nat)
  | [], log, _ => (.error .indexError, log ++ [[0x0E]])
  | f :: rest, log, files =>
    let log1 := log ++ [[0x0E]]
    let entry := f.take 512
    match entry.head? with
    | none => (.error .indexError, log1)
    | some b =>
      if b = 0xFF then (.ok files, log1)
      else
        match decode_entry entry with
        | .error e => (.error e, log1)
        | .ok d => listLoop rest log1 (files ++ [d])

/-- `TINspireDevice.list_directory` (`tinspire_list_files.py`
lines 100-153) run against a scripted transport: connect, send
`0x0D ++ path ++ NUL`, read and ignore the initial status response, then
the entry loop; `disconnect_service` runs only on normal loop exit (an
exception in the loop propagates past it). -/
def list_directory (path : List Nat) (script : List (List Nat)) :
    Except PyErr (List DirectoryEntry) × List (List Nat) :=
  let c := connect_service script []
  let packet := 13 :: (path ++ [0])
  let log1 := c.2 ++ [packet]
  let s2 := c.1.drop 1
  match listLoop s2 log1 [] with
  | (.ok files, log) => (.ok files, disconnect_service log)
  | (.error e, log) => (.error e, log)

end TinspireListFiles

/-! ## Helper lemmas -/

theorem head?_take512 (l : List Nat) : (l.take 512).head? = l.head? := by
  cases l with
  | nil => rfl
  | cons a t => rfl

theorem readStep_some {bl : Nat} {f : List Nat} {bl2 : Nat} {d : List Nat}
    (h : TinspireDevice.readStep bl f = some (bl2, d)) :
    bl2 + d.length = bl := by
  simp only [TinspireDevice.readStep] at h
  by_cases he : (f.take (min (bl + 1) 254)).isEmpty
  · rw [if_pos he] at h; cases h
  · rw [if_neg he] at h
    have hle : (f.take (min (bl + 1) 254)).length ≤ min (bl + 1) 254 := by
      simp [List.length_take]
    have hpos : 0 < (f.take (min (bl + 1) 254)).length := by
      cases hcf : f.take (min (bl + 1) 254) with
      | nil => rw [hcf] at he; exact absurd rfl he
      | cons a t => simp [hcf]
    obtain ⟨h1, h2⟩ := Prod.mk.injEq .. ▸ Option.some.inj h
    subst h1
    subst h2
    simp only [List.length_drop]
    omega

theorem readLoop_ok_length :
    ∀ (script : List (List Nat)) (bl : Nat) (acc data : List Nat),
      TinspireDevice.readLoop script bl acc = .ok data →
      data.length = acc.length + bl := by
  intro script
  induction script with
  | nil =>
    intro bl acc data h
    cases bl with
    | zero =>
      simp only [TinspireDevice.readLoop] at h
      cases h
      simp
    | succ b => simp only [TinspireDevice.readLoop] at h; cases h
  | cons f rest ih =>
    intro bl acc data h
    cases bl with
    | zero =>
      simp only [TinspireDevice.readLoop] at h
      cases h
      simp
    | succ b =>
      simp only [TinspireDevice.readLoop] at h
      cases hs : TinspireDevice.readStep (b + 1) f with
      | none => rw [hs] at h; cases h
      | some p =>
        obtain ⟨bl2, d⟩ := p
        rw [hs] at h
        have h2 := ih bl2 (acc ++ d) data h
        have h3 := readStep_some hs
        simp only [List.length_append] at h2
        omega

theorem chunksGo_join :
    ∀ (fuel : Nat) (content : List Nat), content.length ≤ fuel →
      (TinspireDevice.chunksGo fuel content).flatten = content := by
  intro fuel
  induction fuel with
  | zero =>
    intro content h
    cases content with
    | nil => rfl
    | cons x xs => simp at h
  | succ n ih =>
    intro content h
    cases content with
    | nil => rfl
    | cons x xs =>
      simp only [TinspireDevice.chunksGo, List.flatten_cons]
      rw [ih (xs.drop 252) (by simp only [List.length_drop]; simp at h; omega)]
      simp [List.take_append_drop]

theorem chunksGo_full :
    ∀ (k fuel : Nat) (content : List Nat),
      content.length = 253 * k → content.length ≤ fuel →
      (TinspireDevice.chunksGo fuel content).length = k ∧
      ∀ c ∈ TinspireDevice.chunksGo fuel content, c.length = 253 := by
  intro k
  induction k with
  | zero =>
    intro fuel content hlen _
    have hnil : content = [] := List.length_eq_zero.mp (by omega)
    subst hnil
    cases fuel with
    | zero => exact ⟨rfl, by intro c hc; cases hc⟩
    | succ n => exact ⟨rfl, by intro c hc; cases hc⟩
  | succ k ih =>
    intro fuel content hlen hfuel
    cases content with
    | nil => simp at hlen
    | cons x xs =>
      cases fuel with
      | zero => simp at hfuel
      | succ n =>
        simp only [List.length_cons] at hlen hfuel
        have hdroplen : (xs.drop 252).length = 253 * k := by
          simp only [List.length_drop]; omega
        obtain ⟨ihl, ihc⟩ := ih n (xs.drop 252) hdroplen (by simp only [List.length_drop]; omega)
        simp only [TinspireDevice.chunksGo]
        constructor
        · simp [ihl]
        · intro c hc
          rcases List.mem_cons.mp hc with rfl | hc2
          · simp only [List.length_cons, List.length_take]
            omega
          · exact ihc c hc2

theorem chunksGo_plus1 :
    ∀ (k fuel : Nat) (content : List Nat),
      content.length = 253 * k + 1 → content.length ≤ fuel →
      ∃ cs c, TinspireDevice.chunksGo fuel content = cs ++ [c] ∧ cs.length = k ∧
        (∀ x ∈ cs, x.length = 253) ∧ c.length = 1 := by
  intro k
  induction k with
  | zero =>
    intro fuel content hlen hfuel
    cases content with
    | nil => simp at hlen
    | cons x xs =>
      simp only [List.length_cons] at hlen hfuel
      have hnil : xs = [] := List.length_eq_zero.mp (by omega)
      subst hnil
      cases fuel with
      | zero => omega
      | succ n =>
        refine ⟨[], [x], ?_, rfl, ?_, rfl⟩
        · cases n with
          | zero => rfl
          | succ m => rfl
        · intro c hc
          cases hc
  | succ k ih =>
    intro fuel content hlen hfuel
    cases content with
    | nil => simp at hlen
    | cons x xs =>
      cases fuel with
      | zero => simp at hfuel
      | succ n =>
        simp only [List.length_cons] at hlen hfuel
        have hdroplen : (xs.drop 252).length = 253 * k + 1 := by
          simp only [List.length_drop]; omega
        obtain ⟨cs, c, heq, hcsl, hcs, hc1⟩ :=
          ih n (xs.drop 252) hdroplen (by simp only [List.length_drop]; omega)
        refine ⟨(x :: xs.take 252) :: cs, c, ?_, by simp [hcsl], ?_, hc1⟩
        · simp only [TinspireDevice.chunksGo, heq, List.cons_append]
        · intro y hy
          rcases List.mem_cons.mp hy with rfl | hy2
          · simp only [List.length_cons, List.length_take]; omega
          · exact hcs y hy2

theorem findIdxNul_append_mem :
    ∀ (a b : List Nat), 0 ∈ a →
      ∃ j, findIdxNul (a ++ b) = some j ∧ j < a.length := by
  intro a
  induction a with
  | nil => intro b h; cases h
  | cons x xs ih =>
    intro b h
    by_cases hx : x = 0
    · subst hx
      exact ⟨0, by simp [findIdxNul], by simp⟩
    · have hmem : 0 ∈ xs := by
        rcases List.mem_cons.mp h with h2 | h2
        · exact absurd h2.symm hx
        · exact h2
      obtain ⟨j, hj, hjl⟩ := ih b hmem
      refine ⟨j + 1, ?_, by simp; omega⟩
      simp only [List.cons_append, findIdxNul, if_neg hx]
      rw [List.append_eq, hj]
      rfl

theorem file_write_ok (path content r0 resp final : List Nat)
    (hresp : resp.head? = some 4)
    (hfin : lastTwo (final.take 512) = [255, 0]) :
    TinspireDevice.file_write path content [r0, resp, final] =
      (.ok (), [u16be 0x4060,
          TinspireDevice.build_packet 769 path (u32be content.length)] ++
        (TinspireDevice.chunks253 content).map (fun c => 5 :: c) ++ [[4]]) := by
  simp only [TinspireDevice.file_write, TinspireDevice.connect_service,
    TinspireDevice.close_service, TinspireDevice.SERVICE_FILE,
    List.drop_one, List.tail_cons, List.headD_cons, List.nil_append]
  rw [head?_take512, hresp]
  simp only [if_pos rfl, hfin, if_pos rfl]
  simp [List.append_assoc]

theorem file_read_header_ok (path r0 hdr : List Nat) (rest : List (List Nat))
    (h16 : 16 ≤ hdr.length) (h512 : hdr.length ≤ 512) (htag : hdr.take 2 = [3, 1]) :
    TinspireDevice.file_read path (r0 :: hdr :: rest) =
      (match TinspireDevice.readLoop rest (beU32 ((hdr.drop 12).take 4)) [] with
       | .error e => (.error e, [u16be 0x4060, u16be 0x0701 ++ path ++ [0], [4]])
       | .ok data => (.ok data,
           [u16be 0x4060, u16be 0x0701 ++ path ++ [0], [4], [255, 0], [4]])) := by
  simp only [TinspireDevice.file_read, TinspireDevice.connect_service,
    TinspireDevice.close_service, TinspireDevice.SERVICE_FILE,
    List.drop_one, List.tail_cons, List.headD_cons, List.nil_append]
  rw [List.take_of_length_le h512]
  rw [if_neg (by
    simp only [not_or, not_lt, ne_eq, not_not]
    exact ⟨h16, htag⟩)]
  cases TinspireDevice.readLoop rest (beU32 ((hdr.drop 12).take 4)) [] with
  | error e => simp
  | ok data => simp

theorem listLoop_cons_entry (f : List Nat) (rest : List (List Nat))
    (log : List (List Nat)) (files : List DirectoryEntry) (d : DirectoryEntry)
    (hne : f ≠ []) (hff : f.head? ≠ some 255) (hlen : f.length ≤ 512)
    (hdec : TinspireListFiles.decode_entry f = .ok d) :
    TinspireListFiles.listLoop (f :: rest) log files =
      TinspireListFiles.listLoop rest (log ++ [[14]]) (files ++ [d]) := by
  rcases f with _ | ⟨b, t⟩
  · exact absurd rfl hne
  have hb : ¬ b = 255 := by
    intro h
    exact hff (by simp [h])
  simp only [TinspireListFiles.listLoop]
  rw [List.take_of_length_le hlen]
  simp only [List.head?_cons, if_neg hb, hdec]

theorem listLoop_cons_stop (f : List Nat) (rest : List (List Nat))
    (log : List (List Nat)) (files : List DirectoryEntry)
    (hff : f.head? = some 255) :
    TinspireListFiles.listLoop (f :: rest) log files = (.ok files, log ++ [[14]]) := by
  simp only [TinspireListFiles.listLoop]
  rw [head?_take512, hff]
  simp

theorem readLoopStream_const5 :
    ∀ (n i : Nat) (acc : List Nat),
      TinspireDevice.readLoopStream (fun _ => [5]) n i 1 acc = none := by
  intro n
  induction n with
  | zero => intro i acc; rfl
  | succ m ih =>
    intro i acc
    have hstep : TinspireDevice.readStep 1 [5] = some (1, []) := rfl
    simp only [TinspireDevice.readLoopStream, hstep]
    rw [List.append_nil]
    exact ih (i + 1) acc

theorem readLoopStream_progress :
    ∀ (n : Nat) (frames : Nat → List Nat) (i bl : Nat) (acc : List Nat),
      (∀ j, 2 ≤ (frames j).length) → bl < n →
      (TinspireDevice.readLoopStream frames n i bl acc).isSome := by
  intro n
  induction n with
  | zero => intro frames i bl acc hf h; omega
  | succ m ih =>
    intro frames i bl acc hf h
    cases bl with
    | zero => rfl
    | succ b =>
      obtain ⟨bl2, data, hstep, hb2⟩ :
          ∃ bl2 data, TinspireDevice.readStep (b + 1) (frames i) = some (bl2, data) ∧
            bl2 ≤ b := by
        have h2 := hf i
        have hclen : ((frames i).take (min (b + 1 + 1) 254)).length =
            min (min (b + 1 + 1) 254) (frames i).length := by
          simp [List.length_take]
        have hcl2 : 2 ≤ ((frames i).take (min (b + 1 + 1) 254)).length := by
          rw [hclen]; omega
        have hne : ¬ ((frames i).take (min (b + 1 + 1) 254)).isEmpty = true := by
          rw [List.isEmpty_iff]
          intro hc
          rw [hc] at hcl2
          simp at hcl2
        refine ⟨(b + 1) - (((frames i).take (min (b + 1 + 1) 254)).length - 1),
          ((frames i).take (min (b + 1 + 1) 254)).drop 1, ?_, by omega⟩
        simp only [TinspireDevice.readStep, if_neg hne]
      simp only [TinspireDevice.readLoopStream, hstep]
      exact ih frames (i + 1) bl2 (acc ++ data) hf (by omega)

/-! ## Claim theorems -/

/-- C9 counterexample: the claim says every disconnect writes the single
marker byte `0x04`, but `disconnect_service` in `tinspire_device.py`
writes `0xFF`, which differs from `0x04`. -/
theorem C9_counterexample :
    TinspireDevice.disconnect_service [] = [[255]] ∧
    ([[255]] : List (List Nat)) ≠ [[4]] := by
  decide

/-- C9 (amended): the disconnects actually issued by the file and
directory operations — `close_service` in `tinspire_device.py` and
`disconnect_service` in `tinspire_list_files.py` — write the single byte
`0x04`; the unused `disconnect_service` of `tinspire_device.py` instead
writes the single byte `0xFF`. -/
theorem C9_disconnect_bytes :
    ∀ log : List (List Nat),
      TinspireDevice.close_service log = log ++ [[4]] ∧
      TinspireListFiles.disconnect_service log = log ++ [[4]] ∧
      TinspireDevice.disconnect_service log = log ++ [[255]] :=
  fun _ => ⟨rfl, rfl, rfl⟩

/-- C7 counterexample: for the path bytes `[97, 0, 98]` (an embedded NUL),
`build_packet` does not fail with an `EncodingError` — it is a total
function returning an ordinary packet — and the packet's first NUL after
the 2-byte command sits at index 3, strictly before the appended
terminator at index `2 + 3`, so the terminator is ambiguous. -/
theorem C7_counterexample :
    TinspireDevice.build_packet 769 [97, 0, 98] [] = [3, 1, 97, 0, 98, 0] ∧
    findNulFrom (TinspireDevice.build_packet 769 [97, 0, 98] []) 2 = some 3 ∧
    (3 : Nat) ≠ 2 + ([97, 0, 98] : List Nat).length := by
  decide

/-- C7 (amended): `build_packet` performs no validation at all: for every
path (with or without embedded NUL bytes) it returns the 2-byte big-endian
command followed by the path bytes, one NUL, and the payload; whenever the
path contains a NUL, the first NUL following the command bytes lies
strictly before the appended terminator, so the terminator is ambiguous. -/
theorem C7_build_packet_no_validation :
    (∀ (cmd : Nat) (path payload : List Nat),
        TinspireDevice.build_packet cmd path payload =
          u16be cmd ++ path ++ [0] ++ payload) ∧
    (∀ (cmd : Nat) (path payload : List Nat), 0 ∈ path →
        ∃ j, findNulFrom (TinspireDevice.build_packet cmd path payload) 2 = some j ∧
          j < 2 + path.length) := by
  constructor
  · intro cmd path payload
    rfl
  · intro cmd path payload hmem
    obtain ⟨j, hj, hjl⟩ := findIdxNul_append_mem path ([0] ++ payload) hmem
    refine ⟨2 + j, ?_, by omega⟩
    have hdrop : (TinspireDevice.build_packet cmd path payload).drop 2 =
        path ++ ([0] ++ payload) := by
      simp only [TinspireDevice.build_packet, u16be, List.append_assoc]
      rfl
    simp only [findNulFrom, hdrop, hj]
    rfl

/-- C8 counterexample: a 16-byte entry buffer with no NUL at or after
offset 12 is decoded to an entry (name silently truncated to
`entry[12:-1]`), and so is a 12-byte buffer (below the claimed 13-byte
minimum, empty name) — neither fails with a `MalformedEntry` error. -/
theorem C8_counterexample :
    TinspireListFiles.decode_entry
        [0, 0, 0, 0, 0, 0, 0, 1, 0, 0, 0, 2, 97, 98, 99, 100] =
      .ok ⟨[97, 98, 99], 1, false⟩ ∧
    TinspireListFiles.decode_entry [0, 0, 0, 0, 0, 0, 0, 1, 0, 0, 0, 2] =
      .ok ⟨[], 1, false⟩ :=
  ⟨rfl, rfl⟩

/-- C8 (amended): the entry decoding inlined in `list_directory` performs
no minimum-length or NUL-terminator validation: every buffer of length at
least 12 decodes to an entry, with the name silently set to
`entry[12:len-1]` when no NUL occurs at or after offset 12; buffers
shorter than 12 bytes fail with the implicit `IndexError` / `struct.error`
of the underlying operations, not with a dedicated `MalformedEntry`. -/
theorem C8_decode_entry_behaviour :
    (∀ entry : List Nat, 12 ≤ entry.length →
        ∃ e, TinspireListFiles.decode_entry entry = .ok e ∧
          (findNulFrom entry 12 = none →
            e.name = (entry.take (entry.length - 1)).drop 12)) ∧
    (∀ entry : List Nat, entry.length < 12 →
        TinspireListFiles.decode_entry entry = .error .indexError ∨
        TinspireListFiles.decode_entry entry = .error .structError) := by
  constructor
  · intro entry h12
    rcases entry with _ | ⟨a, entry1⟩
    · simp at h12
    rcases entry1 with _ | ⟨b, t⟩
    · simp at h12
    simp only [List.length_cons] at h12
    have hs : ¬ (((a :: b :: t).drop 4).take 4).length ≠ 4 := by
      simp only [ne_eq, not_not, List.length_take, List.length_drop, List.length_cons]
      omega
    have hd : ¬ (((a :: b :: t).drop 8).take 4).length ≠ 4 := by
      simp only [ne_eq, not_not, List.length_take, List.length_drop, List.length_cons]
      omega
    simp only [TinspireListFiles.decode_entry, List.get?_cons_succ,
      List.get?_cons_zero, if_neg hs, if_neg hd]
    refine ⟨_, rfl, ?_⟩
    intro hnone
    rw [hnone]
  · intro entry hlt
    rcases entry with _ | ⟨a, entry1⟩
    · left; rfl
    rcases entry1 with _ | ⟨b, t⟩
    · left; rfl
    simp only [List.length_cons] at hlt
    right
    simp only [TinspireListFiles.decode_entry, List.get?_cons_succ,
      List.get?_cons_zero]
    by_cases h8 : (((a :: b :: t).drop 4).take 4).length ≠ 4
    · rw [if_pos h8]
    · rw [if_neg h8]
      rw [if_pos (by
        simp only [ne_eq, List.length_take, List.length_drop, List.length_cons]
        simp only [ne_eq, not_not, List.length_take, List.length_drop,
          List.length_cons] at h8
        omega)]

/-- C8 witness: the first part applied to the concrete 16-byte NUL-less
buffer, the second to the 1-byte buffer `[7]`. -/
theorem C8_decode_entry_behaviour_witness :
    (∃ e, TinspireListFiles.decode_entry
        [0, 0, 0, 0, 0, 0, 0, 1, 0, 0, 0, 2, 97, 98, 99, 100] = .ok e ∧
      (findNulFrom [0, 0, 0, 0, 0, 0, 0, 1, 0, 0, 0, 2, 97, 98, 99, 100] 12 = none →
        e.name = (([0, 0, 0, 0, 0, 0, 0, 1, 0, 0, 0, 2, 97, 98, 99, 100] :
          List Nat).take 15).drop 12)) ∧
    (TinspireListFiles.decode_entry [7] = .error .indexError ∨
      TinspireListFiles.decode_entry [7] = .error .structError) :=
  ⟨C8_decode_entry_behaviour.1 _ (by decide),
   C8_decode_entry_behaviour.2 [7] (by decide)⟩

/-- C6 counterexample: a successful chunk step on the marker-only frame
`[5]` with 1 byte remaining appends no data and leaves the remaining count
unchanged — the transferred count does not strictly increase at this chunk
step — while the transfer may still complete later, as the second
conjunct shows. -/
theorem C6_counterexample :
    TinspireDevice.readStep 1 [5] = some (1, []) ∧
    TinspireDevice.readLoop [[5], [5, 7]] 1 [] = .ok [7] :=
  ⟨rfl, rfl⟩

/-- C6 (amended): at every chunk step the remaining count decreases by
exactly the number of data bytes appended (so the transferred count is
non-decreasing, and strictly increases exactly when the frame carries at
least one data byte); a transfer that completes has transferred exactly
`total_size` bytes; and a zero-length read before the remaining count hits
zero raises the fatal `UnexpectedTimeout`, never returning a truncated
buffer. -/
theorem C6_transfer_invariants :
    (∀ (bl : Nat) (f : List Nat) (bl2 : Nat) (d : List Nat),
        TinspireDevice.readStep bl f = some (bl2, d) →
        bl2 + d.length = bl ∧ (d ≠ [] → bl2 < bl)) ∧
    (∀ (script : List (List Nat)) (bl : Nat) (acc data : List Nat),
        TinspireDevice.readLoop script bl acc = .ok data →
        data.length = acc.length + bl) ∧
    (∀ (rest : List (List Nat)) (bl : Nat) (acc : List Nat),
        TinspireDevice.readLoop ([] :: rest) (bl + 1) acc =
          .error .unexpectedTimeout) := by
  refine ⟨?_, readLoop_ok_length, ?_⟩
  · intro bl f bl2 d h
    have h2 := readStep_some h
    refine ⟨h2, ?_⟩
    intro hne
    have : 0 < d.length := List.length_pos.mpr hne
    omega
  · intro rest bl acc
    simp [TinspireDevice.readLoop, TinspireDevice.readStep, List.take_nil]

/-- C6 witness: the amended statement applied at a data-carrying step
(`readStep 2 [5, 9]`), a completing transfer, and a stalled one. -/
theorem C6_transfer_invariants_witness :
    (1 + ([9] : List Nat).length = 2 ∧ (([9] : List Nat) ≠ [] → 1 < 2)) ∧
    ([7] : List Nat).length = ([] : List Nat).length + 1 ∧
    TinspireDevice.readLoop [[]] 1 [] = .error .unexpectedTimeout :=
  ⟨C6_transfer_invariants.1 2 [5, 9] 1 [9] rfl,
   C6_transfer_invariants.2.1 [[5, 7]] 1 [] [7] rfl,
   C6_transfer_invariants.2.2 [] 0 []⟩

/-- C10 counterexample: a device that answers every receive call with the
non-empty marker-only frame `[5]` keeps the loop spinning forever when one
byte remains: no amount of fuel makes the receive loop return or raise,
refuting the claimed termination. -/
theorem C10_counterexample :
    ¬ TinspireDevice.downloadTerminates (fun _ => [5]) 1 := by
  rintro ⟨fuel, hf⟩
  rw [readLoopStream_const5 fuel 0 []] at hf
  simp at hf

/-- C10 (amended): the receive loop terminates whenever every frame of
the stream carries at least one data byte besides the marker (length at
least 2): it then returns or raises within `bytes_remaining + 1` reads;
a stream of non-empty marker-only frames instead loops forever. -/
theorem C10_download_termination :
    ∀ (frames : Nat → List Nat) (bl : Nat),
      (∀ j, 2 ≤ (frames j).length) →
      TinspireDevice.downloadTerminates frames bl :=
  fun frames bl hf =>
    ⟨bl + 1, readLoopStream_progress (bl + 1) frames 0 bl [] hf (by omega)⟩

/-- C10 witness: termination of the loop on the constant two-byte frame
stream with three bytes remaining. -/
theorem C10_download_termination_witness :
    TinspireDevice.downloadTerminates (fun _ => [5, 7]) 3 :=
  C10_download_termination (fun _ => [5, 7]) 3 (fun j => by simp)

/-- C1 counterexample: a rejected upload initialization (response first
byte 0, not the proceed code 4) raises immediately; the write log shows
that no disconnect byte — neither `0x04` nor `0xFF` — was ever written
before the error surfaced. -/
theorem C1_counterexample :
    TinspireDevice.file_write [97] [1, 2, 3] [[1], [0]] =
      (.error .invalidInitResponse, [[64, 96], [3, 1, 97, 0, 0, 0, 0, 3]]) ∧
    [4] ∉ [[64, 96], [3, 1, 97, 0, 0, 0, 0, 3]] ∧
    [255] ∉ ([[64, 96], [3, 1, 97, 0, 0, 0, 0, 3]] : List (List Nat)) :=
  ⟨rfl, by decide, by decide⟩

/-- C1 (amended): none of the three named error paths issues a disconnect
after detecting its error.  A rejected upload init and a failed upload
completion surface with no `0x04` written at all; a stalled download
surfaces with nothing written after the pre-loop `0x04` begin-transfer
confirmation (its final log entry is that confirmation, not a disconnect).
Only the malformed-header download path disconnects before its error. -/
theorem C1_error_paths :
    (∀ (path content r0 resp : List Nat) (rest : List (List Nat)) (b : Nat),
        resp.head? = some b → b ≠ 4 →
        TinspireDevice.file_write path content (r0 :: resp :: rest) =
          (.error .invalidInitResponse,
            [u16be 0x4060,
              TinspireDevice.build_packet 769 path (u32be content.length)]) ∧
        [4] ∉ [u16be 0x4060,
          TinspireDevice.build_packet 769 path (u32be content.length)]) ∧
    (∀ (path content r0 resp final : List Nat) (rest : List (List Nat)),
        resp.head? = some 4 → lastTwo (final.take 512) ≠ [255, 0] →
        TinspireDevice.file_write path content (r0 :: resp :: final :: rest) =
          (.error .uploadNotConfirmed,
            [u16be 0x4060,
              TinspireDevice.build_packet 769 path (u32be content.length)] ++
              (TinspireDevice.chunks253 content).map (fun c => 5 :: c)) ∧
        [4] ∉ [u16be 0x4060,
          TinspireDevice.build_packet 769 path (u32be content.length)] ++
          (TinspireDevice.chunks253 content).map (fun c => 5 :: c)) ∧
    (∀ (path r0 hdr : List Nat) (rest : List (List Nat)),
        16 ≤ hdr.length → hdr.length ≤ 512 → hdr.take 2 = [3, 1] →
        0 < beU32 ((hdr.drop 12).take 4) →
        TinspireDevice.file_read path (r0 :: hdr :: [] :: rest) =
          (.error .unexpectedTimeout,
            [u16be 0x4060, u16be 0x0701 ++ path ++ [0], [4]])) := by
  refine ⟨?_, ?_, ?_⟩
  · intro path content r0 resp rest b hresp hb
    constructor
    · simp only [TinspireDevice.file_write, TinspireDevice.connect_service,
        TinspireDevice.SERVICE_FILE, List.drop_one, List.tail_cons,
        List.headD_cons, List.nil_append]
      rw [head?_take512, hresp]
      simp [hb]
    · simp [TinspireDevice.build_packet, u16be]
  · intro path content r0 resp final rest hresp hfin
    constructor
    · simp only [TinspireDevice.file_write, TinspireDevice.connect_service,
        TinspireDevice.SERVICE_FILE, List.drop_one, List.tail_cons,
        List.headD_cons, List.nil_append]
      rw [head?_take512, hresp]
      simp only [if_pos rfl, if_neg hfin]
      simp [List.append_assoc]
    · simp [TinspireDevice.build_packet, u16be, List.mem_map]
  · intro path r0 hdr rest h16 h512 htag hsz
    rw [file_read_header_ok path r0 hdr ([] :: rest) h16 h512 htag]
    obtain ⟨b, hb⟩ : ∃ b, beU32 ((hdr.drop 12).take 4) = b + 1 :=
      ⟨beU32 ((hdr.drop 12).take 4) - 1, by omega⟩
    rw [hb]
    have hstall : TinspireDevice.readLoop ([] :: rest) (b + 1) [] =
        .error .unexpectedTimeout := by
      simp [TinspireDevice.readLoop, TinspireDevice.readStep, List.take_nil]
    rw [hstall]

/-- C1 witness: the amended statement applied to a concrete rejected
init, a concrete failed completion, and a concrete stalled download. -/
theorem C1_error_paths_witness :
    (TinspireDevice.file_write [97] [1, 2, 3] [[1], [0]] =
        (.error .invalidInitResponse, [[64, 96], [3, 1, 97, 0, 0, 0, 0, 3]]) ∧
      [4] ∉ ([[64, 96], [3, 1, 97, 0, 0, 0, 0, 3]] : List (List Nat))) ∧
    (TinspireDevice.file_write [97] [1, 2] [[1], [4], [9, 9]] =
        (.error .uploadNotConfirmed,
          [[64, 96], [3, 1, 97, 0, 0, 0, 0, 2], [5, 1, 2]]) ∧
      [4] ∉ ([[64, 96], [3, 1, 97, 0, 0, 0, 0, 2], [5, 1, 2]] : List (List Nat))) ∧
    TinspireDevice.file_read [97]
        [[], [3, 1, 0, 0, 0, 0, 0, 0, 0, 0, 0, 0, 0, 0, 0, 2], []] =
      (.error .unexpectedTimeout, [[64, 96], [7, 1, 97, 0], [4]]) :=
  ⟨C1_error_paths.1 [97] [1, 2, 3] [1] [0] [] 0 rfl (by decide),
   C1_error_paths.2.1 [97] [1, 2] [1] [4] [9, 9] [] rfl (by decide),
   C1_error_paths.2.2 [97] [] [3, 1, 0, 0, 0, 0, 0, 0, 0, 0, 0, 0, 0, 0, 0, 2] []
     (by decide) (by decide) (by decide) (by decide)⟩

/-- C2: whenever a download returns successfully, the accumulated buffer
has exactly the `total_size` announced at offset 12..16 of the header,
and the write log is exactly connect, read request, begin-transfer `0x04`,
the 2-byte `0xFF 0x00` completion acknowledgment, and the `0x04`
disconnect — in that order; moreover each loop iteration on a non-empty
frame strips exactly the one marker byte and appends the remainder,
decrementing the remaining count by the data length. -/
theorem C2_download_loop (path r0 hdr : List Nat) (rest : List (List Nat))
    (data : List Nat) (log : List (List Nat))
    (h16 : 16 ≤ hdr.length) (h512 : hdr.length ≤ 512) (htag : hdr.take 2 = [3, 1])
    (h : TinspireDevice.file_read path (r0 :: hdr :: rest) = (.ok data, log)) :
    data.length = beU32 ((hdr.drop 12).take 4) ∧
    log = [u16be 0x4060, u16be 0x0701 ++ path ++ [0], [4], [255, 0], [4]] ∧
    (∀ (f : List Nat) (rs : List (List Nat)) (bl : Nat) (acc : List Nat),
        f.take (min (bl + 1 + 1) 254) ≠ [] →
        TinspireDevice.readLoop (f :: rs) (bl + 1) acc =
          TinspireDevice.readLoop rs
            ((bl + 1) - ((f.take (min (bl + 1 + 1) 254)).length - 1))
            (acc ++ (f.take (min (bl + 1 + 1) 254)).drop 1)) := by
  rw [file_read_header_ok path r0 hdr rest h16 h512 htag] at h
  cases hres : TinspireDevice.readLoop rest (beU32 ((hdr.drop 12).take 4)) [] with
  | error e => rw [hres] at h; simp at h
  | ok d =>
    rw [hres] at h
    simp only [Prod.mk.injEq] at h
    obtain ⟨h1, h2⟩ := h
    injection h1 with hd
    subst hd
    refine ⟨?_, h2.symm, ?_⟩
    · have hlen := readLoop_ok_length rest _ [] d hres
      simpa using hlen
    · intro f rs bl acc hne
      have hnemb : ¬ (f.take (min (bl + 1 + 1) 254)).isEmpty = true := by
        rw [List.isEmpty_iff]
        exact hne
      simp only [TinspireDevice.readLoop, TinspireDevice.readStep, if_neg hnemb]

/-- C2 witness: a 2-byte download whose single frame `[5, 10, 11]`
carries the marker plus both data bytes. -/
theorem C2_download_loop_witness :
    ([10, 11] : List Nat).length =
      beU32 ((([3, 1, 0, 0, 0, 0, 0, 0, 0, 0, 0, 0, 0, 0, 0, 2] :
        List Nat).drop 12).take 4) ∧
    ([u16be 0x4060, u16be 0x0701 ++ [97] ++ [0], [4], [255, 0], [4]] :
        List (List Nat)) =
      [u16be 0x4060, u16be 0x0701 ++ [97] ++ [0], [4], [255, 0], [4]] :=
  let X := C2_download_loop [97] [] [3, 1, 0, 0, 0, 0, 0, 0, 0, 0, 0, 0, 0, 0, 0, 2]
    [[5, 10, 11]] [10, 11]
    [u16be 0x4060, u16be 0x0701 ++ [97] ++ [0], [4], [255, 0], [4]]
    (by decide) (by decide) (by decide) rfl
  ⟨X.1, X.2.1⟩

/-- C5: a download whose header frame is shorter than 16 bytes or whose
first two bytes are not the tag `0x03 0x01` fails with the
file-not-found error, and the write log ends with the `0x04` disconnect
written before the error propagates. -/
theorem C5_malformed_header (path r0 hdr : List Nat) (rest : List (List Nat))
    (h : hdr.length < 16 ∨ hdr.take 2 ≠ [3, 1]) :
    TinspireDevice.file_read path (r0 :: hdr :: rest) =
      (.error .fileNotFound, [u16be 0x4060, u16be 0x0701 ++ path ++ [0], [4]]) := by
  have hcond : (hdr.take 512).length < 16 ∨ (hdr.take 512).take 2 ≠ [3, 1] := by
    rcases h with h | h
    · left
      simp only [List.length_take]
      omega
    · right
      rw [List.take_take]
      simpa using h
  simp only [TinspireDevice.file_read, TinspireDevice.connect_service,
    TinspireDevice.close_service, TinspireDevice.SERVICE_FILE,
    List.drop_one, List.tail_cons, List.headD_cons, List.nil_append]
  rw [if_pos hcond]
  simp [List.append_assoc]

/-- C5 witness: an empty header frame (length 0 < 16). -/
theorem C5_malformed_header_witness :
    TinspireDevice.file_read [97] [[], []] =
      (.error .fileNotFound, [[64, 96], [7, 1, 97, 0], [4]]) :=
  C5_malformed_header [97] [] [] [] (Or.inl (by decide))

/-- C3: a 253k-byte upload sends exactly k chunk packets of 253 data
bytes each, every packet prefixed with the marker 5, in order (their
concatenation is the payload) and with no trailing empty chunk; a
253k+1-byte payload yields k full chunks plus one final 1-byte chunk; a
zero-length upload sends no chunk packet at all while the init packet is
still written and the final confirmation still read (the successful
result implies the confirmation check ran). -/
theorem C3_upload_chunking :
    (∀ (k : Nat) (content path r0 resp final : List Nat),
        content.length = 253 * k →
        resp.head? = some 4 → lastTwo (final.take 512) = [255, 0] →
        TinspireDevice.file_write path content [r0, resp, final] =
          (.ok (), [u16be 0x4060,
              TinspireDevice.build_packet 769 path (u32be content.length)] ++
            (TinspireDevice.chunks253 content).map (fun c => 5 :: c) ++ [[4]]) ∧
        (TinspireDevice.chunks253 content).length = k ∧
        (∀ c ∈ TinspireDevice.chunks253 content, c.length = 253) ∧
        (TinspireDevice.chunks253 content).flatten = content) ∧
    (∀ (k : Nat) (content : List Nat), content.length = 253 * k + 1 →
        ∃ cs c, TinspireDevice.chunks253 content = cs ++ [c] ∧ cs.length = k ∧
          (∀ x ∈ cs, x.length = 253) ∧ c.length = 1 ∧
          (cs ++ [c]).flatten = content) ∧
    (∀ (path r0 resp final : List Nat),
        resp.head? = some 4 → lastTwo (final.take 512) = [255, 0] →
        TinspireDevice.file_write path [] [r0, resp, final] =
          (.ok (), [u16be 0x4060,
            TinspireDevice.build_packet 769 path (u32be 0), [4]])) := by
  refine ⟨?_, ?_, ?_⟩
  · intro k content path r0 resp final hlen hresp hfin
    obtain ⟨hl, hc⟩ := chunksGo_full k content.length content hlen (le_refl _)
    exact ⟨file_write_ok path content r0 resp final hresp hfin, hl, hc,
      chunksGo_join content.length content (le_refl _)⟩
  · intro k content hlen
    obtain ⟨cs, c, heq, hcsl, hcs, hc1⟩ :=
      chunksGo_plus1 k content.length content hlen (le_refl _)
    refine ⟨cs, c, heq, hcsl, hcs, hc1, ?_⟩
    rw [← heq]
    exact chunksGo_join content.length content (le_refl _)
  · intro path r0 resp final hresp hfin
    have h := file_write_ok path [] r0 resp final hresp hfin
    simpa [TinspireDevice.chunks253, TinspireDevice.chunksGo] using h

/-- C3 witness: the first part at a 253-byte payload (k = 1), the second
at the 1-byte payload `[7]` (k = 0), the third at the empty payload. -/
theorem C3_upload_chunking_witness :
    (TinspireDevice.file_write [97] (List.replicate 253 0) [[], [4], [255, 0]] =
        (.ok (), [u16be 0x4060,
            TinspireDevice.build_packet 769 [97]
              (u32be (List.replicate 253 0).length)] ++
          (TinspireDevice.chunks253 (List.replicate 253 0)).map (fun c => 5 :: c) ++
          [[4]]) ∧
      (TinspireDevice.chunks253 (List.replicate 253 0)).length = 1 ∧
      (∀ c ∈ TinspireDevice.chunks253 (List.replicate 253 0), c.length = 253) ∧
      (TinspireDevice.chunks253 (List.replicate 253 0)).flatten =
        List.replicate 253 0) ∧
    (∃ cs c, TinspireDevice.chunks253 [7] = cs ++ [c] ∧ cs.length = 0 ∧
      (∀ x ∈ cs, x.length = 253) ∧ c.length = 1 ∧ (cs ++ [c]).flatten = [7]) ∧
    TinspireDevice.file_write [97] [] [[], [4], [255, 0]] =
      (.ok (), [u16be 0x4060, TinspireDevice.build_packet 769 [97] (u32be 0), [4]]) :=
  ⟨C3_upload_chunking.1 1 (List.replicate 253 0) [97] [] [4] [255, 0]
      (by rw [List.length_replicate]) rfl rfl,
   C3_upload_chunking.2.1 0 [7] rfl,
   C3_upload_chunking.2.2 [97] [] [4] [255, 0] rfl rfl⟩

/-- C4: with a scripted transport that, after the connect response and the
list command's initial acknowledgment, yields three decodable entry
frames followed by a frame whose first byte is 255, `list_directory`
returns exactly those three entries in received order, and its write log
— connect packet, list packet, four next-entry requests `[14]`, and the
disconnect — contains exactly 4 next-entry request writes. -/
theorem C4_listing_termination (path r0 init e1 e2 e3 f : List Nat)
    (rest : List (List Nat)) (d1 d2 d3 : DirectoryEntry)
    (h1 : e1 ≠ []) (h1f : e1.head? ≠ some 255) (h1l : e1.length ≤ 512)
    (h1d : TinspireListFiles.decode_entry e1 = .ok d1)
    (h2 : e2 ≠ []) (h2f : e2.head? ≠ some 255) (h2l : e2.length ≤ 512)
    (h2d : TinspireListFiles.decode_entry e2 = .ok d2)
    (h3 : e3 ≠ []) (h3f : e3.head? ≠ some 255) (h3l : e3.length ≤ 512)
    (h3d : TinspireListFiles.decode_entry e3 = .ok d3)
    (hf : f.head? = some 255) :
    TinspireListFiles.list_directory path
        (r0 :: init :: e1 :: e2 :: e3 :: f :: rest) =
      (.ok [d1, d2, d3],
        [u16be 0x4060, 13 :: (path ++ [0]), [14], [14], [14], [14], [4]]) ∧
    ([u16be 0x4060, 13 :: (path ++ [0]), [14], [14], [14], [14],
        ([4] : List Nat)] : List (List Nat)).count [14] = 4 := by
  constructor
  · simp only [TinspireListFiles.list_directory, TinspireListFiles.connect_service,
      TinspireListFiles.disconnect_service, List.drop_one, List.tail_cons,
      List.nil_append]
    rw [listLoop_cons_entry e1 _ _ _ d1 h1 h1f h1l h1d]
    rw [listLoop_cons_entry e2 _ _ _ d2 h2 h2f h2l h2d]
    rw [listLoop_cons_entry e3 _ _ _ d3 h3 h3f h3l h3d]
    rw [listLoop_cons_stop f _ _ _ hf]
    simp
  · simp only [List.count_cons, List.count_nil, u16be]
    norm_num

/-- C4 witness: a scripted transport with three concrete decodable entry
frames followed by a first-byte-255 frame. -/
theorem C4_listing_termination_witness :
    TinspireListFiles.list_directory [47]
        [[0], [4, 0],
          [0, 1, 0, 0, 0, 0, 0, 5, 0, 0, 0, 9, 97, 0],
          [0, 0, 0, 0, 0, 0, 0, 6, 0, 0, 0, 9, 98, 0],
          [0, 1, 0, 0, 0, 0, 0, 7, 0, 0, 0, 9, 99, 0],
          [255, 0]] =
      (.ok [⟨[97], 5, true⟩, ⟨[98], 6, false⟩, ⟨[99], 7, true⟩],
        [[64, 96], [13, 47, 0], [14], [14], [14], [14], [4]]) ∧
    ([[64, 96], [13, 47, 0], [14], [14], [14], [14], [4]] :
        List (List Nat)).count [14] = 4 :=
  C4_listing_termination [47] [0] [4, 0]
    [0, 1, 0, 0, 0, 0, 0, 5, 0, 0, 0, 9, 97, 0]
    [0, 0, 0, 0, 0, 0, 0, 6, 0, 0, 0, 9, 98, 0]
    [0, 1, 0, 0, 0, 0, 0, 7, 0, 0, 0, 9, 99, 0]
    [255, 0] [] ⟨[97], 5, true⟩ ⟨[98], 6, false⟩ ⟨[99], 7, true⟩
    (by decide) (by decide) (by decide) rfl
    (by decide) (by decide) (by decide) rfl
    (by decide) (by decide) (by decide) rfl
    rfl

/-- C7 witness: the amended statement applied to the path `[97, 0, 98]`
with an embedded NUL. -/
theorem C7_build_packet_no_validation_witness :
    TinspireDevice.build_packet 769 [97, 0, 98] [] =
      u16be 769 ++ [97, 0, 98] ++ [0] ++ [] ∧
    ∃ j, findNulFrom (TinspireDevice.build_packet 769 [97, 0, 98] []) 2 = some j ∧
      j < 2 + ([97, 0, 98] : List Nat).length :=
  ⟨C7_build_packet_no_validation.1 769 [97, 0, 98] [],
   C7_build_packet_no_validation.2 769 [97, 0, 98] [] (by decide)⟩
